import Mathlib

/-!
Verification of the embassy appointment scheduling application (`src/app.py`).

The development shallowly embeds the application's core: the medical-exam
date validator `validate_medical_exam`, the store access paths (the
`get_db` transaction wrapper, the insert performed by `create_appointment`,
the `SELECT` queries of `list_appointments` and `appointment_detail`), and
the `create_appointment` request handler.  Python dates are modelled by
their proleptic Gregorian ordinal, exactly as CPython's `datetime.date`
computes it; `datetime.strptime(s, "%Y-%m-%d")` is modelled by the regular
expressions CPython's `_strptime` module builds for the directives
`%Y`, `%m` and `%d`.
-/

namespace AppointmentApp

/-! ## Calendar arithmetic (model of CPython `datetime.date`) -/

/-- Gregorian leap-year test, as in CPython `datetime._is_leap`:
`year % 4 == 0 and (year % 100 != 0 or year % 400 == 0)`. -/
def isLeap (y : Nat) : Bool :=
  y % 4 == 0 && (y % 100 != 0 || y % 400 == 0)

/-- Number of days in month `m` of year `y` (CPython `datetime._days_in_month`). -/
def daysInMonth (y m : Nat) : Nat :=
  if m == 2 then (if isLeap y then 29 else 28)
  else if m == 4 || m == 6 || m == 9 || m == 11 then 30
  else 31

/-- Days before January 1 of year `y` (CPython `datetime._days_before_year`):
`(y-1)*365 + (y-1)//4 - (y-1)//100 + (y-1)//400`. -/
def daysBeforeYear (y : Nat) : Nat :=
  (y - 1) * 365 + (y - 1) / 4 - (y - 1) / 100 + (y - 1) / 400

/-- Days in year `y` preceding the first of month `m`
(CPython `datetime._days_before_month`). -/
def daysBeforeMonth (y m : Nat) : Nat :=
  (List.range (m - 1)).foldl (fun acc i => acc + daysInMonth y (i + 1)) 0

/-- Proleptic Gregorian ordinal of the date `y-m-d`, where January 1 of year 1
has ordinal 1 (CPython `datetime.date.toordinal`). -/
def toOrdinal (y m d : Nat) : Nat :=
  daysBeforeYear y + daysBeforeMonth y m + d

/-! ## Model of `datetime.strptime(s, "%Y-%m-%d")` -/

/-- Numeric value of a list of ASCII digits, most significant first
(Python `int()` on the matched group). -/
def digitsVal (cs : List Char) : Nat :=
  cs.foldl (fun n c => n * 10 + (c.toNat - 48)) 0

/-- Splits a character list on the dash separator, keeping empty groups,
like Python `str.split("-")`. -/
def splitDash : List Char → List (List Char)
  | [] => [[]]
  | c :: rest =>
    match splitDash rest with
    | [] => if c == '-' then [[], []] else [[c]]
    | g :: gs => if c == '-' then [] :: g :: gs else (c :: g) :: gs

/-- Language of CPython's regular expression for the `%m` directive,
`1[0-2]|0[1-9]|[1-9]`, and likewise for `%d` (`3[01]|[12]\d|0[1-9]|[1-9]`):
one or two ASCII digits, zero padding optional.  The numeric range
(1..12 for `%m`, 1..31 for `%d`) is checked separately. -/
def oneOrTwoDigits (cs : List Char) : Bool :=
  (cs.length == 1 || cs.length == 2) && cs.all Char.isDigit

/-- Model of `datetime.strptime(s, "%Y-%m-%d")`, returning the parsed
`(year, month, day)` or `none` where CPython raises `ValueError`.
CPython's `_strptime` compiles the format to the anchored regular
expression `(\d\d\d\d)-(1[0-2]|0[1-9]|[1-9])-(3[01]|[12]\d|0[1-9]|[1-9])`,
requires it to consume the whole input, and then the `datetime` constructor
enforces `1 <= year`, `1 <= month <= 12` and `1 <= day <= days_in_month`.
Since the year group is exactly four digits and the month and day groups
contain no dash, a string is accepted exactly when it splits on dashes into
three such groups.  (Non-ASCII Unicode digits, which Python's `\d` would
also match, are outside the model.) -/
def strptimeYmd (s : String) : Option (Nat × Nat × Nat) :=
  match splitDash s.data with
  | [ys, ms, ds] =>
    if ys.length == 4 && ys.all Char.isDigit
        && oneOrTwoDigits ms && oneOrTwoDigits ds then
      let y := digitsVal ys
      let m := digitsVal ms
      let d := digitsVal ds
      if 1 ≤ y && 1 ≤ m && m ≤ 12 && 1 ≤ d && d ≤ daysInMonth y m then
        some (y, m, d)
      else none
    else none
  | _ => none

/-- Modelled from the spec: parsing under a strict `YYYY-MM-DD` format, in
which the year is exactly four digits and the month and the day are exactly
two digits each (zero padded), denoting a valid proleptic Gregorian date.
This is the reading of the spec's words "strict `YYYY-MM-DD` format"; it is
compared against `strptimeYmd`, the model of what the code's parse accepts. -/
def specStrictYMD (s : String) : Option (Nat × Nat × Nat) :=
  match splitDash s.data with
  | [ys, ms, ds] =>
    if ys.length == 4 && ys.all Char.isDigit
        && ms.length == 2 && ms.all Char.isDigit
        && ds.length == 2 && ds.all Char.isDigit then
      let y := digitsVal ys
      let m := digitsVal ms
      let d := digitsVal ds
      if 1 ≤ y && 1 ≤ m && m ≤ 12 && 1 ≤ d && d ≤ daysInMonth y m then
        some (y, m, d)
      else none
    else none
  | _ => none

/-! ## Model of `datetime.now()` and timedelta day extraction -/

/-- Microseconds in one day, the resolution of Python `timedelta`. -/
def usecPerDay : Nat := 86400000000

/-- A `datetime.now()` value: the proleptic Gregorian ordinal of its civil
date together with the number of microseconds elapsed since midnight
(a faithful `datetime` carries `usec < usecPerDay`; theorems assume it). -/
structure PyDateTime where
  ordinal : Nat
  usec : Nat

/-- The `.days` field of `now - exam_date` where `exam_date` is the parsed
date at midnight: Python `timedelta.days` is the floor of the signed
duration in days, here computed with flooring division on microseconds. -/
def timedeltaDays (now : PyDateTime) (examOrdinal : Nat) : Int :=
  Int.fdiv (((now.ordinal : Int) - (examOrdinal : Int)) * (usecPerDay : Int)
      + (now.usec : Int)) (usecPerDay : Int)

/-! ## The validator (`validate_medical_exam`, src/app.py lines 63-77) -/

/-- Model of `validate_medical_exam(exam_date_str)` as a pure function of
the input string, the configured `MEDICAL_EXAM_VALIDITY_DAYS` and the
current time: parse strictly, compute `days_ago = (now - exam_date).days`,
reject negative `days_ago`, reject `days_ago > validity_days`, else accept.
A `ValueError` from `strptime` is caught and mapped to the format reason. -/
def validate_medical_exam (exam_date_str : String) (validity_days : Int)
    (now : PyDateTime) : Bool × String :=
  match strptimeYmd exam_date_str with
  | none => (false, "Invalid date format")
  | some (y, m, d) =>
    let days_ago := timedeltaDays now (toOrdinal y m d)
    if days_ago < 0 then
      (false, "Medical exam date cannot be in the future")
    else if days_ago > validity_days then
      (false, "Medical exam must be within the last "
          ++ toString validity_days ++ " days")
    else
      (true, "Medical exam is valid")

/-! ## The appointment store (sqlite table `appointments`) -/

/-- A row of the `appointments` table, with the ten columns written by the
insert in `create_appointment` (the `created_at` / `updated_at` timestamp
defaults play no role in any claim).  `medical_exam_verified` is stored as
an integer 0/1 as in the sqlite schema. -/
structure Appointment where
  id : String
  applicant_name : String
  email : String
  passport_number : String
  phone_number : String
  appointment_date : String
  appointment_time : String
  medical_exam_date : String
  medical_exam_verified : Nat
  status : String
deriving DecidableEq

/-- The persisted state: the rows of the `appointments` table in rowid
(insertion) order. -/
abbrev Store := List Appointment

/-- Model of the `get_db` context manager (src/app.py lines 26-38) around a
write: the body runs against the connection; on success the transaction is
committed (the new state persists), on any exception it is rolled back (the
persisted state is exactly the state before the write) and the exception
propagates.  Returns the propagated outcome and the persisted state. -/
def get_db (db : Store) (body : Store → Except String Store) :
    Except String Store × Store :=
  match body db with
  | Except.ok db2 => (Except.ok db2, db2)
  | Except.error e => (Except.error e, db)

/-- One `INSERT INTO appointments` statement: fails (sqlite `IntegrityError`)
when the primary key `id` already exists, otherwise appends the row. -/
def insertRow (db : Store) (a : Appointment) : Except String Store :=
  if db.any (fun r => r.id == a.id) then
    Except.error "UNIQUE constraint failed: appointments.id"
  else
    Except.ok (db ++ [a])

/-! ## The request handlers -/

/-- The configuration values consulted by `create_appointment` and
`validate_medical_exam`. -/
structure Config where
  MEDICAL_EXAM_REQUIRED : Bool
  MEDICAL_EXAM_VALIDITY_DAYS : Int

/-- The submitted form data.  Python's check `if not data.get(field)` treats
an absent key and an empty string identically (both falsy), and
`data.get('phone_number', '')` maps an absent phone number to `""`, so
every field is modelled as a string with `""` standing for absent-or-empty. -/
structure FormData where
  applicant_name : String
  email : String
  passport_number : String
  phone_number : String
  appointment_date : String
  appointment_time : String
  medical_exam_date : String

/-- The `required_fields` list of `create_appointment`, in source order. -/
def required_fields : List String :=
  ["applicant_name", "email", "passport_number",
   "appointment_date", "appointment_time", "medical_exam_date"]

/-- `data.get(field)` for the form dictionary, with `""` for unknown keys. -/
def fieldValue (data : FormData) : String → String
  | "applicant_name" => data.applicant_name
  | "email" => data.email
  | "passport_number" => data.passport_number
  | "phone_number" => data.phone_number
  | "appointment_date" => data.appointment_date
  | "appointment_time" => data.appointment_time
  | "medical_exam_date" => data.medical_exam_date
  | _ => ""

/-- The outcome of `POST /appointments`: a 400 JSON missing-field error, a
400 re-rendered form carrying the validator's reason, a 302 redirect to the
detail page of the fresh id, or the 500 page of the outer exception handler. -/
inductive CreateResult where
  | missingField (field : String)
  | validationError (message : String)
  | redirect (appointment_id : String)
  | serverError
deriving DecidableEq

/-- HTTP status code attached to each `create_appointment` outcome in the
source (`, 400`, `, 400`, the 302 of `redirect`, `, 500`). -/
def createStatusCode : CreateResult → Nat
  | CreateResult.missingField _ => 400
  | CreateResult.validationError _ => 400
  | CreateResult.redirect _ => 302
  | CreateResult.serverError => 500

/-- The row built by the insert in `create_appointment`: the form fields
verbatim, `medical_exam_verified = 1` and `status = 'confirmed'`. -/
def mkAppt (data : FormData) (appointment_id : String) : Appointment :=
  { id := appointment_id
    applicant_name := data.applicant_name
    email := data.email
    passport_number := data.passport_number
    phone_number := data.phone_number
    appointment_date := data.appointment_date
    appointment_time := data.appointment_time
    medical_exam_date := data.medical_exam_date
    medical_exam_verified := 1
    status := "confirmed" }

/-- Model of `create_appointment` (src/app.py lines 103-156) as a function
of the configuration, the current time, the form data, the fresh
`uuid.uuid4()` string and the current store.  In order: the first falsy
required field aborts with a missing-field error; with the feature flag on,
a validator rejection aborts with its message; otherwise the row is
inserted inside the `get_db` transaction, a failure there being caught by
the handler's outer `except` as a 500 after rollback. -/
def create_appointment (cfg : Config) (now : PyDateTime) (data : FormData)
    (freshId : String) (db : Store) : CreateResult × Store :=
  match required_fields.find? (fun field => fieldValue data field == "") with
  | some field => (CreateResult.missingField field, db)
  | none =>
    let check := validate_medical_exam data.medical_exam_date
        cfg.MEDICAL_EXAM_VALIDITY_DAYS now
    if cfg.MEDICAL_EXAM_REQUIRED && !check.1 then
      (CreateResult.validationError check.2, db)
    else
      match get_db db (fun conn => insertRow conn (mkAppt data freshId)) with
      | (Except.ok _, db2) => (CreateResult.redirect freshId, db2)
      | (Except.error _, db2) => (CreateResult.serverError, db2)

/-- Descending comparison used to model the query's
`ORDER BY appointment_date DESC, appointment_time DESC`: row `a` may come
before row `b` when `a`'s key `(appointment_date, appointment_time)` is
lexicographically at least `b`'s.  Sqlite's BINARY collation on the UTF-8
column bytes coincides with the code-point order on strings. -/
def apptDescLe (a b : Appointment) : Bool :=
  decide (b.appointment_date < a.appointment_date)
    || (decide (a.appointment_date = b.appointment_date)
        && decide (b.appointment_time ≤ a.appointment_time))

/-- Model of the query of `list_appointments` (src/app.py lines 86-101):
all rows, ordered by appointment date descending, then appointment time
descending. -/
def list_appointments (db : Store) : List Appointment :=
  db.mergeSort apptDescLe

/-- The outcome of `GET /appointments/{id}`: the rendered record, or the 404
plain-text body. -/
inductive DetailResult where
  | found (a : Appointment)
  | notFound (body : String)
deriving DecidableEq

/-- HTTP status code of each `appointment_detail` outcome. -/
def detailStatusCode : DetailResult → Nat
  | DetailResult.found _ => 200
  | DetailResult.notFound _ => 404

/-- Model of `appointment_detail` (src/app.py lines 158-172):
`SELECT * FROM appointments WHERE id = ?` with `fetchone()` yields the
first matching row, and a missing row yields the 404 body. -/
def appointment_detail (db : Store) (appointment_id : String) : DetailResult :=
  match db.find? (fun a => a.id == appointment_id) with
  | some a => DetailResult.found a
  | none => DetailResult.notFound "Appointment not found"

/-! ## Helper lemmas -/

/-- On any genuine `datetime` value (time of day below one day), the
`.days` field of `now - exam_date` is the difference of the civil-date
ordinals: the time of day never changes the floored day count. -/
theorem timedeltaDays_eq (now : PyDateTime) (e : Nat) (h : now.usec < usecPerDay) :
    timedeltaDays now e = (now.ordinal : Int) - (e : Int) := by
  have h2 : (now.usec : Int) < 86400000000 := by exact_mod_cast h
  have h3 : (0 : Int) ≤ (now.usec : Int) := Int.natCast_nonneg _
  unfold timedeltaDays usecPerDay
  rw [Int.fdiv_eq_ediv _ (by norm_num)]
  omega

/-- Every string accepted by the strict zero-padded `YYYY-MM-DD` format is
accepted, with the same date, by the code's `strptime` parse. -/
theorem strict_implies_strptime (s : String) (t : Nat × Nat × Nat)
    (h : specStrictYMD s = some t) : strptimeYmd s = some t := by
  unfold specStrictYMD at h
  unfold strptimeYmd
  split at h
  next ys ms ds heq =>
    split at h
    next hguard =>
      simp only [Bool.and_eq_true, beq_iff_eq] at hguard
      obtain ⟨⟨⟨⟨⟨hy4, hyd⟩, hm2⟩, hmd⟩, hd2⟩, hdd⟩ := hguard
      have hcode : (ys.length == 4 && ys.all Char.isDigit
          && oneOrTwoDigits ms && oneOrTwoDigits ds) = true := by
        simp [oneOrTwoDigits, hy4, hyd, hm2, hmd, hd2, hdd]
      rw [if_pos hcode]
      exact h
    next hguard => exact absurd h (by simp)
  next heq2 => exact absurd h (by simp)

/-- Case analysis of the validator on a string its parse accepts: with the
elapsed days abbreviating the ordinal difference of the current date and
the exam date, the three remaining rules fire in order. -/
theorem validate_medical_exam_cases (s : String) (N : Int) (now : PyDateTime)
    (husec : now.usec < usecPerDay) (y m d : Nat)
    (hp : strptimeYmd s = some (y, m, d)) :
    ((now.ordinal : Int) - (toOrdinal y m d : Int) < 0 →
      validate_medical_exam s N now
        = (false, "Medical exam date cannot be in the future")) ∧
    (0 ≤ (now.ordinal : Int) - (toOrdinal y m d : Int) →
      N < (now.ordinal : Int) - (toOrdinal y m d : Int) →
      validate_medical_exam s N now
        = (false, "Medical exam must be within the last "
            ++ toString N ++ " days")) ∧
    (0 ≤ (now.ordinal : Int) - (toOrdinal y m d : Int) →
      (now.ordinal : Int) - (toOrdinal y m d : Int) ≤ N →
      validate_medical_exam s N now = (true, "Medical exam is valid")) := by
  unfold validate_medical_exam
  rw [hp]
  simp only
  rw [timedeltaDays_eq now (toOrdinal y m d) husec]
  refine ⟨fun h1 => ?_, fun h1 h2 => ?_, fun h1 h2 => ?_⟩
  · rw [if_pos h1]
  · rw [if_neg (by omega), if_pos (by omega)]
  · rw [if_neg (by omega), if_neg (by omega)]

/-- A predicate finds the head of its first satisfied position: scanning a
list that starts with failures followed by a hit returns that hit. -/
theorem find?_first {α : Type} (p : α → Bool) :
    ∀ (l₁ : List α) (f : α) (l₂ : List α),
      (∀ g ∈ l₁, p g = false) → p f = true →
      (l₁ ++ f :: l₂).find? p = some f
  | [], f, l₂, _, hf => by simpa using List.find?_cons_of_pos l₂ hf
  | a :: l₁, f, l₂, h, hf => by
    have ha : p a = false := h a (List.mem_cons_self a l₁)
    rw [List.cons_append, List.find?_cons_of_neg _ (by simp [ha])]
    exact find?_first p l₁ f l₂ (fun g hg => h g (List.mem_cons_of_mem a hg)) hf

/-- Looking up an id absent from every original row but carried by a newly
appended row returns the appended row. -/
theorem detail_append (db : Store) (a : Appointment) (i : String)
    (h : ∀ b ∈ db, b.id ≠ i) (ha : a.id = i) :
    appointment_detail (db ++ [a]) i = DetailResult.found a := by
  unfold appointment_detail
  rw [List.find?_append]
  have h1 : db.find? (fun b => b.id == i) = none :=
    List.find?_eq_none.mpr (fun x hx => by simp [h x hx])
  rw [h1]
  rw [List.find?_cons_of_pos _ (by simp [ha])]
  rfl

/-- Shared success path of `create_appointment`: with every required field
non-empty, the validation check passing or switched off, and a fresh id,
the handler inserts exactly one new row and redirects. -/
theorem create_ok (cfg : Config) (now : PyDateTime) (data : FormData)
    (freshId : String) (db : Store)
    (hfields : ∀ f ∈ required_fields, fieldValue data f ≠ "")
    (hcheck : cfg.MEDICAL_EXAM_REQUIRED = false ∨
      (validate_medical_exam data.medical_exam_date
          cfg.MEDICAL_EXAM_VALIDITY_DAYS now).1 = true)
    (hfresh : ∀ a ∈ db, a.id ≠ freshId) :
    create_appointment cfg now data freshId db
      = (CreateResult.redirect freshId, db ++ [mkAppt data freshId]) := by
  unfold create_appointment
  have h1 : required_fields.find? (fun field => fieldValue data field == "") = none :=
    List.find?_eq_none.mpr (fun f hf => by simp [hfields f hf])
  rw [h1]
  simp only
  have h2 : (cfg.MEDICAL_EXAM_REQUIRED
      && !(validate_medical_exam data.medical_exam_date
            cfg.MEDICAL_EXAM_VALIDITY_DAYS now).1) = false := by
    rcases hcheck with h | h <;> simp [h]
  rw [if_neg (by simp [h2])]
  have h3 : db.any (fun r => r.id == (mkAppt data freshId).id) = false := by
    rw [List.any_eq_false]
    intro x hx
    simp [hfresh x hx, mkAppt]
  simp [get_db, insertRow, h3]

/-- Unfolding of the descending comparison into its ordering meaning. -/
theorem apptDescLe_iff (a b : Appointment) :
    apptDescLe a b = true ↔
      (b.appointment_date < a.appointment_date
        ∨ (a.appointment_date = b.appointment_date
            ∧ b.appointment_time ≤ a.appointment_time)) := by
  simp [apptDescLe]

/-- The descending comparison is transitive. -/
theorem apptDescLe_trans (a b c : Appointment)
    (h1 : apptDescLe a b) (h2 : apptDescLe b c) : apptDescLe a c := by
  rw [apptDescLe_iff] at *
  rcases h1 with h1 | ⟨h1e, h1t⟩ <;> rcases h2 with h2 | ⟨h2e, h2t⟩
  · exact Or.inl (lt_trans h2 h1)
  · exact Or.inl (lt_of_eq_of_lt h2e.symm h1)
  · exact Or.inl (lt_of_lt_of_eq h2 h1e.symm)
  · exact Or.inr ⟨h1e.trans h2e, le_trans h2t h1t⟩

/-- The descending comparison is total. -/
theorem apptDescLe_total (a b : Appointment) :
    apptDescLe a b || apptDescLe b a := by
  simp only [Bool.or_eq_true, apptDescLe_iff]
  rcases lt_trichotomy a.appointment_date b.appointment_date with h | h | h
  · exact Or.inr (Or.inl h)
  · rcases le_total a.appointment_time b.appointment_time with h2 | h2
    · exact Or.inr (Or.inr ⟨h.symm, h2⟩)
    · exact Or.inl (Or.inr ⟨h, h2⟩)
  · exact Or.inl (Or.inl h)

/-- Searching a store whose ids are pairwise distinct for the id of a
member row returns exactly that row. -/
theorem find?_of_unique {l : List Appointment} {a : Appointment} {i : String}
    (ha : a ∈ l) (hai : a.id = i)
    (hnodup : List.Pairwise (fun x y => x.id ≠ y.id) l) :
    l.find? (fun x => x.id == i) = some a := by
  induction l with
  | nil => cases ha
  | cons b t ih =>
    rcases List.mem_cons.mp ha with rfl | hmem
    · exact List.find?_cons_of_pos t (by simp [hai])
    · have hb : b.id ≠ i := by
        have hba := (List.pairwise_cons.mp hnodup).1 a hmem
        rw [hai] at hba
        exact hba
      rw [List.find?_cons_of_neg t (by simp [hb])]
      exact ih hmem (List.pairwise_cons.mp hnodup).2

/-! ## Claim theorems -/

/-- C1 (counterexample): rule 1 of the claimed decision procedure fails on
the code.  The input `"2024-6-1"` does not parse under the strict
zero-padded `YYYY-MM-DD` format, yet the validator does not return the
invalid-format result: the code's `strptime` accepts the non-padded month
and day, and with a 180-day window and current date 2024-06-01 the result
is valid. -/
theorem c1_counterexample :
    specStrictYMD "2024-6-1" = none ∧
    validate_medical_exam "2024-6-1" 180 ⟨toOrdinal 2024 6 1, 0⟩
        ≠ (false, "Invalid date format") ∧
    validate_medical_exam "2024-6-1" 180 ⟨toOrdinal 2024 6 1, 0⟩
        = (true, "Medical exam is valid") :=
  ⟨by decide, by decide, by decide⟩

/-- C1 (amended claim): the validator, as a pure function of the input
string, the validity window N and the current time, implements the four
rules in order, where rule 1's parse is the code's `strptime` format — a
four-digit year and a one-or-two-digit month and day, zero padding
optional — rather than strictly zero-padded `YYYY-MM-DD`: a string that
parser rejects yields invalid with the format reason; otherwise, with
elapsed days = current date minus exam date, a negative elapsed yields
invalid with the future-date reason, an elapsed strictly exceeding N
yields invalid with the window reason, and every remaining input yields
valid. -/
theorem c1_decision_procedure (s : String) (N : Int) (now : PyDateTime)
    (husec : now.usec < usecPerDay) :
    (strptimeYmd s = none →
      validate_medical_exam s N now = (false, "Invalid date format")) ∧
    (∀ y m d, strptimeYmd s = some (y, m, d) →
      ((now.ordinal : Int) - (toOrdinal y m d : Int) < 0 →
        validate_medical_exam s N now
          = (false, "Medical exam date cannot be in the future")) ∧
      (0 ≤ (now.ordinal : Int) - (toOrdinal y m d : Int) →
        N < (now.ordinal : Int) - (toOrdinal y m d : Int) →
        validate_medical_exam s N now
          = (false, "Medical exam must be within the last "
              ++ toString N ++ " days")) ∧
      (0 ≤ (now.ordinal : Int) - (toOrdinal y m d : Int) →
        (now.ordinal : Int) - (toOrdinal y m d : Int) ≤ N →
        validate_medical_exam s N now = (true, "Medical exam is valid"))) := by
  constructor
  · intro hp
    unfold validate_medical_exam
    rw [hp]
  · intro y m d hp
    exact validate_medical_exam_cases s N now husec y m d hp

/-- C1 witness: the amended decision procedure applied concretely — the
exam date 2024-01-01 parses, lies 152 days before the current date
2024-06-01, and is within a 180-day window, hence valid. -/
theorem c1_decision_procedure_witness :
    validate_medical_exam "2024-01-01" 180 ⟨toOrdinal 2024 6 1, 0⟩
      = (true, "Medical exam is valid") :=
  ((c1_decision_procedure "2024-01-01" 180 ⟨toOrdinal 2024 6 1, 0⟩
      (by decide)).2 2024 1 1 (by decide)).2.2 (by decide) (by decide)

/-- C2: every well-formed `YYYY-MM-DD` exam date between 0 and the validity
window days in the past (both ends included) is accepted; concretely, with
a 180-day window and current date 2024-06-01, the exam date 2024-01-01
(152 days ago) is valid while 2023-01-01 exceeds the window and 2024-07-01
lies in the future. -/
theorem c2_window_acceptance :
    (∀ (s : String) (y m d : Nat) (N : Int) (now : PyDateTime),
        now.usec < usecPerDay →
        specStrictYMD s = some (y, m, d) →
        0 ≤ (now.ordinal : Int) - (toOrdinal y m d : Int) →
        (now.ordinal : Int) - (toOrdinal y m d : Int) ≤ N →
        validate_medical_exam s N now = (true, "Medical exam is valid")) ∧
    ((toOrdinal 2024 6 1 : Int) - (toOrdinal 2024 1 1 : Int) = 152
      ∧ validate_medical_exam "2024-01-01" 180 ⟨toOrdinal 2024 6 1, 0⟩
          = (true, "Medical exam is valid")) ∧
    validate_medical_exam "2023-01-01" 180 ⟨toOrdinal 2024 6 1, 0⟩
      = (false, "Medical exam must be within the last 180 days") ∧
    validate_medical_exam "2024-07-01" 180 ⟨toOrdinal 2024 6 1, 0⟩
      = (false, "Medical exam date cannot be in the future") := by
  refine ⟨?_, ⟨by decide, by decide⟩, by decide, by decide⟩
  intro s y m d N now husec hparse h0 hN
  exact (validate_medical_exam_cases s N now husec y m d
    (strict_implies_strptime s (y, m, d) hparse)).2.2 h0 hN

/-- C2 witness: the universal part applied to the strict date 2024-02-29
(a leap day, 92 days before the current date 2024-05-31, within a 180-day
window). -/
theorem c2_window_acceptance_witness :
    validate_medical_exam "2024-02-29" 180 ⟨toOrdinal 2024 5 31, 0⟩
      = (true, "Medical exam is valid") :=
  c2_window_acceptance.1 "2024-02-29" 2024 2 29 180 ⟨toOrdinal 2024 5 31, 0⟩
    (by decide) (by decide) (by decide) (by decide)

/-- C10: the validator is total on string inputs and its result is always
one of the four (flag, message) pairs; in particular every string the
parse rejects is mapped to the invalid-format result rather than an
escaping exception. -/
theorem c10_validator_total (s : String) (N : Int) (now : PyDateTime) :
    (strptimeYmd s = none →
      validate_medical_exam s N now = (false, "Invalid date format")) ∧
    (validate_medical_exam s N now = (false, "Invalid date format") ∨
     validate_medical_exam s N now
       = (false, "Medical exam date cannot be in the future") ∨
     validate_medical_exam s N now
       = (false, "Medical exam must be within the last "
           ++ toString N ++ " days") ∨
     validate_medical_exam s N now = (true, "Medical exam is valid")) := by
  constructor
  · intro hp
    unfold validate_medical_exam
    rw [hp]
  · unfold validate_medical_exam
    cases hp : strptimeYmd s with
    | none => left; rfl
    | some t =>
      obtain ⟨y, m, d⟩ := t
      simp only
      split_ifs
      · right; left; rfl
      · right; right; left; rfl
      · right; right; right; rfl

/-- C10 witness: the totality statement applied to the unparseable string
`"not-a-date"`, which is mapped to the invalid-format result. -/
theorem c10_validator_total_witness :
    validate_medical_exam "not-a-date" 180 ⟨toOrdinal 2024 6 1, 0⟩
      = (false, "Invalid date format") :=
  (c10_validator_total "not-a-date" 180 ⟨toOrdinal 2024 6 1, 0⟩).1 (by decide)

/-- C3: a creation request with all six required fields non-empty, an exam
date the validator accepts, and a fresh id succeeds with a redirect to the
returned id, and fetching that id yields a stored record with
status `"confirmed"` and `medical_exam_verified = 1`. -/
theorem c3_create_then_fetch (cfg : Config) (now : PyDateTime)
    (data : FormData) (freshId : String) (db : Store)
    (hfields : ∀ f ∈ required_fields, fieldValue data f ≠ "")
    (hvalid : (validate_medical_exam data.medical_exam_date
        cfg.MEDICAL_EXAM_VALIDITY_DAYS now).1 = true)
    (hfresh : ∀ a ∈ db, a.id ≠ freshId) :
    ∃ db2 a,
      create_appointment cfg now data freshId db
        = (CreateResult.redirect freshId, db2) ∧
      appointment_detail db2 freshId = DetailResult.found a ∧
      a.status = "confirmed" ∧ a.medical_exam_verified = 1 ∧ a.id = freshId :=
  ⟨db ++ [mkAppt data freshId], mkAppt data freshId,
    create_ok cfg now data freshId db hfields (Or.inr hvalid) hfresh,
    detail_append db (mkAppt data freshId) freshId hfresh rfl, rfl, rfl, rfl⟩

/-- Form data of the spec's concrete creation scenario (Jane Doe). -/
def demoData : FormData :=
  { applicant_name := "Jane Doe"
    email := "j@x.com"
    passport_number := "P123"
    phone_number := ""
    appointment_date := "2024-07-10"
    appointment_time := "09:00"
    medical_exam_date := "2024-06-01" }

/-- C3 witness: the Jane Doe scenario against an empty store, with a
180-day window and current date 2024-06-01. -/
theorem c3_create_then_fetch_witness :
    ∃ db2 a,
      create_appointment ⟨true, 180⟩ ⟨toOrdinal 2024 6 1, 0⟩ demoData "id-1" []
        = (CreateResult.redirect "id-1", db2) ∧
      appointment_detail db2 "id-1" = DetailResult.found a ∧
      a.status = "confirmed" ∧ a.medical_exam_verified = 1 ∧ a.id = "id-1" :=
  c3_create_then_fetch ⟨true, 180⟩ ⟨toOrdinal 2024 6 1, 0⟩ demoData "id-1" []
    (by decide) (by decide) (by simp)

/-- C4: a creation request whose first missing-or-empty required field,
in the order of `required_fields`, is `f` fails with the 400 missing-field
error naming `f`, and the store is returned unchanged. -/
theorem c4_missing_field (cfg : Config) (now : PyDateTime) (data : FormData)
    (freshId : String) (db : Store) (l₁ l₂ : List String) (f : String)
    (horder : required_fields = l₁ ++ f :: l₂)
    (hbefore : ∀ g ∈ l₁, fieldValue data g ≠ "")
    (hf : fieldValue data f = "") :
    create_appointment cfg now data freshId db
      = (CreateResult.missingField f, db) ∧
    createStatusCode (CreateResult.missingField f) = 400 := by
  constructor
  · unfold create_appointment
    have hfind : required_fields.find? (fun field => fieldValue data field == "")
        = some f := by
      rw [horder]
      exact find?_first _ l₁ f l₂ (fun g hg => by simp [hbefore g hg])
        (by simp [hf])
    rw [hfind]
  · rfl

/-- C4 witness: a request with a non-empty applicant name but an empty
email is rejected naming `email`, the first missing field, with the store
left unchanged. -/
theorem c4_missing_field_witness :
    create_appointment ⟨true, 180⟩ ⟨toOrdinal 2024 6 1, 0⟩
        { applicant_name := "Jane Doe", email := "", passport_number := "",
          phone_number := "", appointment_date := "", appointment_time := "",
          medical_exam_date := "" } "id-1" []
      = (CreateResult.missingField "email", []) ∧
    createStatusCode (CreateResult.missingField "email") = 400 :=
  c4_missing_field ⟨true, 180⟩ ⟨toOrdinal 2024 6 1, 0⟩
    { applicant_name := "Jane Doe", email := "", passport_number := "",
      phone_number := "", appointment_date := "", appointment_time := "",
      medical_exam_date := "" } "id-1" [] ["applicant_name"]
    ["passport_number", "appointment_date", "appointment_time",
     "medical_exam_date"] "email" (by decide) (by decide) (by decide)

/-- C5: with all required fields non-empty, the medical-exam flag enabled
and the validator rejecting the exam date, creation fails with the 400
validation error carrying the validator's reason, and the store is
returned unchanged. -/
theorem c5_validation_rejection (cfg : Config) (now : PyDateTime)
    (data : FormData) (freshId : String) (db : Store)
    (hfields : ∀ f ∈ required_fields, fieldValue data f ≠ "")
    (hflag : cfg.MEDICAL_EXAM_REQUIRED = true)
    (hfail : (validate_medical_exam data.medical_exam_date
        cfg.MEDICAL_EXAM_VALIDITY_DAYS now).1 = false) :
    create_appointment cfg now data freshId db
      = (CreateResult.validationError
          (validate_medical_exam data.medical_exam_date
            cfg.MEDICAL_EXAM_VALIDITY_DAYS now).2, db) ∧
    createStatusCode (CreateResult.validationError
        (validate_medical_exam data.medical_exam_date
          cfg.MEDICAL_EXAM_VALIDITY_DAYS now).2) = 400 := by
  constructor
  · unfold create_appointment
    have h1 : required_fields.find? (fun field => fieldValue data field == "")
        = none :=
      List.find?_eq_none.mpr (fun f hf => by simp [hfields f hf])
    rw [h1]
    simp only
    rw [if_pos (by simp [hflag, hfail])]
  · rfl

/-- C5 witness: the Jane Doe data with the out-of-window exam date
2023-01-01 is rejected with the validator's window reason, leaving the
store empty. -/
theorem c5_validation_rejection_witness :
    create_appointment ⟨true, 180⟩ ⟨toOrdinal 2024 6 1, 0⟩
        { demoData with medical_exam_date := "2023-01-01" } "id-1" []
      = (CreateResult.validationError
          "Medical exam must be within the last 180 days", []) := by
  have h := (c5_validation_rejection ⟨true, 180⟩ ⟨toOrdinal 2024 6 1, 0⟩
    { demoData with medical_exam_date := "2023-01-01" } "id-1" []
    (by decide) rfl (by decide)).1
  rw [h]
  decide

/-- C6: every store write runs inside the `get_db` transaction: when the
body of the write fails with any error, the persisted state is exactly the
state before the operation and the error propagates to the caller; when
the body succeeds, its result is committed as the persisted state. -/
theorem c6_transaction_rollback (db : Store)
    (body : Store → Except String Store) :
    (∀ e, body db = Except.error e →
      get_db db body = (Except.error e, db)) ∧
    (∀ db2, body db = Except.ok db2 →
      get_db db body = (Except.ok db2, db2)) := by
  constructor
  · intro e he
    unfold get_db
    rw [he]
  · intro db2 hok
    unfold get_db
    rw [hok]

/-- C6 witness: a failing write body leaves an empty store empty and
propagates its error; a succeeding one commits its row. -/
theorem c6_transaction_rollback_witness :
    get_db [] (fun _ => Except.error "disk full")
      = (Except.error "disk full", []) :=
  (c6_transaction_rollback [] (fun _ => Except.error "disk full")).1
    "disk full" rfl

/-- C7: for every store state, listing returns exactly the stored records
(a permutation), ordered by appointment date descending with ties broken
by appointment time descending. -/
theorem c7_list_ordering (db : Store) :
    (list_appointments db).Perm db ∧
    (list_appointments db).Pairwise (fun a b =>
      b.appointment_date < a.appointment_date
        ∨ (a.appointment_date = b.appointment_date
            ∧ b.appointment_time ≤ a.appointment_time)) := by
  constructor
  · exact List.mergeSort_perm db apptDescLe
  · unfold list_appointments
    refine List.Pairwise.imp (fun hab => ?_)
      (List.sorted_mergeSort ?_ ?_ db)
    · exact (apptDescLe_iff _ _).mp hab
    · exact fun a b c h1 h2 => apptDescLe_trans a b c h1 h2
    · exact fun a b => apptDescLe_total a b

/-- C8: fetching an id held by no stored record yields the 404 outcome
with body `"Appointment not found"`; fetching an id held by a stored
record (ids being unique) yields that record with a 200 outcome. -/
theorem c8_detail_lookup (db : Store) (i : String) :
    ((∀ a ∈ db, a.id ≠ i) →
      appointment_detail db i = DetailResult.notFound "Appointment not found"
        ∧ detailStatusCode (appointment_detail db i) = 404) ∧
    (∀ a ∈ db, a.id = i → List.Pairwise (fun x y => x.id ≠ y.id) db →
      appointment_detail db i = DetailResult.found a
        ∧ detailStatusCode (appointment_detail db i) = 200) := by
  constructor
  · intro h
    have hnone : db.find? (fun a => a.id == i) = none :=
      List.find?_eq_none.mpr (fun x hx => by simp [h x hx])
    constructor <;> simp [appointment_detail, detailStatusCode, hnone]
  · intro a ha hai hnodup
    have hsome : db.find? (fun x => x.id == i) = some a :=
      find?_of_unique ha hai hnodup
    constructor <;> simp [appointment_detail, detailStatusCode, hsome]

/-- C8 witness: in a one-record store, the stored id is found with code
200 and an absent id yields the 404 body. -/
theorem c8_detail_lookup_witness :
    appointment_detail [mkAppt demoData "id-1"] "id-2"
        = DetailResult.notFound "Appointment not found" ∧
    appointment_detail [mkAppt demoData "id-1"] "id-1"
        = DetailResult.found (mkAppt demoData "id-1") :=
  ⟨((c8_detail_lookup [mkAppt demoData "id-1"] "id-2").1 (by decide)).1,
   ((c8_detail_lookup [mkAppt demoData "id-1"] "id-1").2
     (mkAppt demoData "id-1") (by simp) rfl (by simp)).1⟩

/-- C9: with the medical-exam flag disabled, a creation request whose
required fields are all non-empty is accepted with no validation of the
exam date beyond non-emptiness, and the exam-date string is persisted
verbatim in the created record. -/
theorem c9_flag_disabled (cfg : Config) (now : PyDateTime) (data : FormData)
    (freshId : String) (db : Store)
    (hflag : cfg.MEDICAL_EXAM_REQUIRED = false)
    (hfields : ∀ f ∈ required_fields, fieldValue data f ≠ "")
    (hfresh : ∀ a ∈ db, a.id ≠ freshId) :
    ∃ a, create_appointment cfg now data freshId db
        = (CreateResult.redirect freshId, db ++ [a]) ∧
      a.medical_exam_date = data.medical_exam_date ∧
      appointment_detail (db ++ [a]) freshId = DetailResult.found a :=
  ⟨mkAppt data freshId,
    create_ok cfg now data freshId db hfields (Or.inl hflag) hfresh, rfl,
    detail_append db (mkAppt data freshId) freshId hfresh rfl⟩

/-- C9 witness: with the flag off, the exam date `"not-a-date"` — which the
parser rejects — is accepted and stored verbatim. -/
theorem c9_flag_disabled_witness :
    strptimeYmd "not-a-date" = none ∧
    ∃ a, create_appointment ⟨false, 180⟩ ⟨toOrdinal 2024 6 1, 0⟩
          { demoData with medical_exam_date := "not-a-date" } "id-1" []
        = (CreateResult.redirect "id-1", [] ++ [a]) ∧
      a.medical_exam_date = "not-a-date" ∧
      appointment_detail ([] ++ [a]) "id-1" = DetailResult.found a :=
  ⟨by decide,
   c9_flag_disabled ⟨false, 180⟩ ⟨toOrdinal 2024 6 1, 0⟩
     { demoData with medical_exam_date := "not-a-date" } "id-1" []
     rfl (by decide) (by simp)⟩

end AppointmentApp
